import Mathlib

/-!
Verification of Flask-HTTPAuth (role-auth fork), shallowly embedded in Lean 4.

The embedding mirrors `flask_httpauth.py`:
* machine integers are `Nat` reduced modulo `2^32` / `2^64` where the source
  relies on fixed-width arithmetic (inside MD5);
* Python values that may be `None` are `Option`s; Python truthiness on
  strings ("" and `None` are falsy) is modelled by `""`/`Option.none` tests;
* Python exceptions (`TypeError` from `x in None`, the `TypeError` raised by
  `MultiRoleAuth.__init__`) are `Except Unit` results;
* `werkzeug.security.safe_str_cmp` is functionally string equality (its
  constant-time execution is a timing property outside the embedding).
-/

/-! ### MD5, as used by `hashlib.md5(...).hexdigest()` -/

/-- UTF-8 encoding of a single character (RFC 3629), as `str.encode('utf-8')`
does per code point. -/
def utf8EncodeChar (c : Char) : List Nat :=
  let n := c.toNat
  if n < 0x80 then [n]
  else if n < 0x800 then
    [0xC0 ||| (n >>> 6), 0x80 ||| (n &&& 0x3F)]
  else if n < 0x10000 then
    [0xE0 ||| (n >>> 12), 0x80 ||| ((n >>> 6) &&& 0x3F), 0x80 ||| (n &&& 0x3F)]
  else
    [0xF0 ||| (n >>> 18), 0x80 ||| ((n >>> 12) &&& 0x3F),
     0x80 ||| ((n >>> 6) &&& 0x3F), 0x80 ||| (n &&& 0x3F)]

/-- `s.encode('utf-8')` as a list of byte values. -/
def utf8Bytes (s : String) : List Nat :=
  s.data.foldl (fun acc c => acc ++ utf8EncodeChar c) []

/-- Little-endian decoding of (up to) a word's bytes. -/
def fromLEBytes (l : List Nat) : Nat :=
  l.foldr (fun b acc => b % 256 + 256 * acc) 0

/-- Little-endian encoding of `n` into `k` bytes. -/
def toLEBytes (n k : Nat) : List Nat :=
  (List.range k).map (fun i => (n >>> (8 * i)) % 256)

/-- 32-bit left rotation (inputs taken modulo `2^32`). -/
def rotl32 (x n : Nat) : Nat :=
  (((x % 4294967296) <<< n) % 4294967296) ||| ((x % 4294967296) >>> (32 - n))

/-- 32-bit bitwise complement. -/
def mnot32 (x : Nat) : Nat := x ^^^ 4294967295

/-- The MD5 sine-derived constant table `K[0..63]` (RFC 1321). -/
def md5K : List Nat :=
  [0xd76aa478, 0xe8c7b756, 0x242070db, 0xc1bdceee,
   0xf57c0faf, 0x4787c62a, 0xa8304613, 0xfd469501,
   0x698098d8, 0x8b44f7af, 0xffff5bb1, 0x895cd7be,
   0x6b901122, 0xfd987193, 0xa679438e, 0x49b40821,
   0xf61e2562, 0xc040b340, 0x265e5a51, 0xe9b6c7aa,
   0xd62f105d, 0x02441453, 0xd8a1e681, 0xe7d3fbc8,
   0x21e1cde6, 0xc33707d6, 0xf4d50d87, 0x455a14ed,
   0xa9e3e905, 0xfcefa3f8, 0x676f02d9, 0x8d2a4c8a,
   0xfffa3942, 0x8771f681, 0x6d9d6122, 0xfde5380c,
   0xa4beea44, 0x4bdecfa9, 0xf6bb4b60, 0xbebfbc70,
   0x289b7ec6, 0xeaa127fa, 0xd4ef3085, 0x04881d05,
   0xd9d4d039, 0xe6db99e5, 0x1fa27cf8, 0xc4ac5665,
   0xf4292244, 0x432aff97, 0xab9423a7, 0xfc93a039,
   0x655b59c3, 0x8f0ccc92, 0xffeff47d, 0x85845dd1,
   0x6fa87e4f, 0xfe2ce6e0, 0xa3014314, 0x4e0811a1,
   0xf7537e82, 0xbd3af235, 0x2ad7d2bb, 0xeb86d391]

/-- The MD5 per-round left-rotation amounts `s[0..63]`. -/
def md5S : List Nat :=
  [7, 12, 17, 22, 7, 12, 17, 22, 7, 12, 17, 22, 7, 12, 17, 22,
   5, 9, 14, 20, 5, 9, 14, 20, 5, 9, 14, 20, 5, 9, 14, 20,
   4, 11, 16, 23, 4, 11, 16, 23, 4, 11, 16, 23, 4, 11, 16, 23,
   6, 10, 15, 21, 6, 10, 15, 21, 6, 10, 15, 21, 6, 10, 15, 21]

/-- One MD5 round `i` over message words `m`, state `(a, b, c, d)`. -/
def md5Round (m : List Nat) (st : Nat × Nat × Nat × Nat) (i : Nat) :
    Nat × Nat × Nat × Nat :=
  let a := st.1
  let b := st.2.1
  let c := st.2.2.1
  let d := st.2.2.2
  let fg : Nat × Nat :=
    if i < 16 then ((b &&& c) ||| (mnot32 b &&& d), i)
    else if i < 32 then ((d &&& b) ||| (mnot32 d &&& c), (5 * i + 1) % 16)
    else if i < 48 then (b ^^^ c ^^^ d, (3 * i + 5) % 16)
    else (c ^^^ (b ||| mnot32 d), (7 * i) % 16)
  let f := (fg.1 + a + md5K.getD i 0 + m.getD fg.2 0) % 4294967296
  (d, (b + rotl32 f (md5S.getD i 0)) % 4294967296, b, c)

/-- Process one 64-byte block into the running MD5 state. -/
def md5ProcessBlock (st : Nat × Nat × Nat × Nat) (block : List Nat) :
    Nat × Nat × Nat × Nat :=
  let m := (List.range 16).map (fun j => fromLEBytes ((block.drop (4 * j)).take 4))
  let r := (List.range 64).foldl (md5Round m) st
  ((st.1 + r.1) % 4294967296, (st.2.1 + r.2.1) % 4294967296,
   (st.2.2.1 + r.2.2.1) % 4294967296, (st.2.2.2 + r.2.2.2) % 4294967296)

/-- MD5 padding: append `0x80`, zeros to 56 mod 64, then the 64-bit
little-endian bit length. -/
def md5Pad (msg : List Nat) : List Nat :=
  msg ++ [0x80] ++ List.replicate ((119 - msg.length % 64) % 64) 0 ++
    toLEBytes ((msg.length * 8) % 18446744073709551616) 8

/-- The MD5 digest of a byte list, as 16 bytes. -/
def md5Bytes (msg : List Nat) : List Nat :=
  let padded := md5Pad msg
  let blocks := (List.range (padded.length / 64)).map
    (fun i => (padded.drop (64 * i)).take 64)
  let r := blocks.foldl md5ProcessBlock (0x67452301, 0xefcdab89, 0x98badcfe, 0x10325476)
  toLEBytes r.1 4 ++ toLEBytes r.2.1 4 ++ toLEBytes r.2.2.1 4 ++ toLEBytes r.2.2.2 4

/-- Lower-case hex digit for a value below 16 (code points 48-57 are
`0`-`9`, 97-102 are `a`-`f`). -/
def hexDigit (n : Nat) : Char :=
  if n < 10 then Char.ofNat (48 + n) else Char.ofNat (87 + n)

/-- Lower-case hexadecimal rendering of a byte list, as `.hexdigest()`. -/
def bytesToHex (l : List Nat) : String :=
  String.mk (l.foldr (fun b acc => hexDigit (b / 16) :: hexDigit (b % 16) :: acc) [])

/-- `md5(s.encode('utf-8')).hexdigest()`. -/
def md5Hex (s : String) : String := bytesToHex (md5Bytes (utf8Bytes s))

/-! ### Header parsing helpers -/

/-- ASCII whitespace, as Python `str.split(None, ...)` separates on:
space (32) and tab/newline/vertical tab/form feed/carriage return (9-13).
HTTP header values are ASCII, so the non-ASCII Python space characters do
not arise. -/
def pyIsSpace (c : Char) : Bool :=
  c.toNat == 32 || (9 ≤ c.toNat && c.toNat ≤ 13)

/-- Python `s.split(None, 1)` followed by unpacking into two variables:
`some (first_token, remainder)` when the string has at least two
whitespace-separated tokens, `none` when unpacking raises `ValueError`
(zero or one token). The remainder has its leading whitespace stripped. -/
def pySplitOnce (s : String) : Option (String × String) :=
  let l := s.data.dropWhile pyIsSpace
  let tok := l.takeWhile (fun c => !pyIsSpace c)
  let rest := ((l.dropWhile (fun c => !pyIsSpace c)).dropWhile pyIsSpace)
  if tok.isEmpty || rest.isEmpty then none
  else some (String.mk tok, String.mk rest)

/-- Python `str.lower()` on one character (ASCII range; HTTP scheme tokens
are ASCII). -/
def lowerChar (c : Char) : Char :=
  if c.toNat ≥ 65 && c.toNat ≤ 90 then Char.ofNat (c.toNat + 32) else c

/-- Python `str.lower()` (ASCII case mapping). -/
def lowerStr (s : String) : String := String.mk (s.data.map lowerChar)

/-- Credentials carried by a parsed `Authorization` header
(`werkzeug.datastructures.Authorization`): the scheme token and, for the
hand-parsed branch, the raw token. -/
structure ParsedAuth where
  atype : String
  token : Option String
deriving DecidableEq, Repr

/-- `HTTPAuth.get_auth`. `wz` is what `request.authorization` (werkzeug's
own parser, which only understands Basic and Digest) returned for the
header; `header` is the raw `Authorization` header when present. -/
def getAuth (wz : Option ParsedAuth) (header : Option String) (scheme : String) :
    Option ParsedAuth :=
  let auth : Option ParsedAuth :=
    match wz with
    | some a => some a
    | none =>
      match header with
      | none => none
      | some h =>
        match pySplitOnce h with
        | none => none
        | some (t, tok) => some ⟨t, some tok⟩
  match auth with
  | none => none
  | some a => if lowerStr a.atype == lowerStr scheme then some a else none

/-! ### Basic authentication -/

/-- Credentials for Basic authentication; `password` is `none` when the
parsed header carries no password. -/
structure BasicAuth where
  username : String
  password : Option String
deriving DecidableEq, Repr

/-- `HTTPBasicAuth.authenticate`. The two optional callbacks mirror
`verify_password_callback` and `hash_password_callback` (the latter's
one-vs-two-argument `TypeError` retry is abstracted into a single function
on the client password). `safe_str_cmp` is string equality. -/
def basicAuthenticate (verifyCb : Option (String → Option String → Bool))
    (hashCb : Option (Option String → Option String))
    (auth : Option BasicAuth) (stored : Option String) : Bool :=
  let username := match auth with | some a => a.username | none => ""
  let clientPassword : Option String :=
    match auth with | some a => a.password | none => some ""
  match verifyCb with
  | some v => v username clientPassword
  | none =>
    match auth with
    | none => false
    | some _ =>
      let clientPassword :=
        match hashCb with
        | some hcb => hcb clientPassword
        | none => clientPassword
      match clientPassword, stored with
      | some cp, some sp => cp == sp
      | _, _ => false

/-! ### Digest authentication -/

/-- Credentials for Digest authentication. Empty strings model both absent
and empty fields (both are falsy in the Python truthiness checks); `opaq`
is the `opaque` parameter handed to the verifier callback. -/
structure DigestAuth where
  username : String
  realm : String
  uri : String
  nonce : String
  response : String
  opaq : Option String
deriving DecidableEq, Repr

/-- `HTTPDigestAuth.authenticate`. `vN` and `vO` are the nonce/opaque
verifier callbacks, `method` is `request.method`, `stored` the secret from
the password lookup (empty string models absent/empty). -/
def digestAuthenticate (useHa1Pw : Bool) (vN : String → Bool)
    (vO : Option String → Bool) (method : String)
    (auth : Option DigestAuth) (stored : String) : Bool :=
  match auth with
  | none => false
  | some a =>
    if a.username == "" || a.realm == "" || a.uri == "" || a.nonce == "" ||
        a.response == "" || stored == "" then false
    else if !(vN a.nonce) || !(vO a.opaq) then false
    else
      let ha1 :=
        if useHa1Pw then stored
        else md5Hex (a.username ++ ":" ++ a.realm ++ ":" ++ stored)
      let ha2 := md5Hex (method ++ ":" ++ a.uri)
      let response := md5Hex (ha1 ++ ":" ++ a.nonce ++ ":" ++ ha2)
      response == a.response

/-! ### Multi-scheme dispatch -/

/-- `MultiAuth.selected_auth`: `schemeOf` extracts an authenticator's
`scheme`, `additional` is the registration-ordered extra list, `header`
the raw `Authorization` header. -/
def selectedAuth {α : Type} (schemeOf : α → String) (mainAuth : α)
    (additional : List α) (header : Option String) : α :=
  let sel : Option α :=
    match header with
    | none => none
    | some h =>
      match pySplitOnce h with
      | none => none
      | some (scheme, _) => additional.find? (fun a => schemeOf a == scheme)
  sel.getD mainAuth

/-- An authenticator as seen by `MultiRoleAuth.__init__`: its scheme and
whether it is an instance of `HTTPRoleAuthMixin`. -/
structure AuthCap where
  scheme : String
  roleCapable : Bool
deriving DecidableEq, Repr

/-- The `for auth in (main_auth, *args)` loop of `MultiRoleAuth.__init__`:
`.error ()` models the `TypeError` raised at the first authenticator that
does not inherit from `HTTPRoleAuthMixin`. -/
def checkRoleCapable : List AuthCap → Except Unit Unit
  | [] => .ok ()
  | a :: rest => if a.roleCapable then checkRoleCapable rest else .error ()

/-- `MultiRoleAuth.__init__`: constructs the dispatcher, or raises
`TypeError` (`.error ()`). -/
def multiRoleAuthInit (mainAuth : AuthCap) (additional : List AuthCap) :
    Except Unit (AuthCap × List AuthCap) :=
  match checkRoleCapable (mainAuth :: additional) with
  | .error e => .error e
  | .ok _ => .ok (mainAuth, additional)

/-! ### Error/challenge responder -/

/-- A Flask response as far as `HTTPAuth.error_handler` observes it:
status code and header list. -/
structure Resp where
  status : Nat
  headers : List (String × String)
deriving DecidableEq, Repr

/-- `HTTPAuth.authenticate_header`: the challenge string. -/
def authenticateHeader (scheme realm : String) : String :=
  scheme ++ " realm=\"" ++ realm ++ "\""

/-- The wrapper installed by `HTTPAuth.error_handler` around the
caller-supplied error-body callback: `res` is `make_response(f(...))`,
`challenge` is `self.authenticate_header()`. -/
def errorResponse (challenge : String) (res : Resp) : Resp :=
  let res1 := if res.status == 200 then { res with status := 401 } else res
  if res1.headers.any (fun kv => kv.1 == "WWW-Authenticate") then res1
  else { res1 with headers := res1.headers ++ [("WWW-Authenticate", challenge)] }

/-- Header lookup in a response, for stating what the responder set. -/
def headerLookup (res : Resp) (key : String) : Option String :=
  (res.headers.find? (fun kv => kv.1 == key)).map (fun kv => kv.2)

/-! ### Role authorization overlay -/

/-- `HTTPRoleAuthMixin.authorize`. `rolesCb` is the `get_auth_roles`
callback resolving an identity's roles; `endpointRoles` is the `roles`
argument of `login_required` (`none` models Python `None`). `.error ()`
models the `TypeError` raised by evaluating `role in None`; `all`/`any`
over an empty generator never evaluate the membership test. -/
def authorize {α : Type} (rolesCb : α → List String) (auth : Option α)
    (endpointRoles : Option (List String)) (useAll : Bool) : Except Unit Bool :=
  match auth with
  | none => .ok false
  | some x =>
    let authRoles := rolesCb x
    if useAll then
      match endpointRoles with
      | some er => .ok (authRoles.all (fun r => er.contains r))
      | none => if authRoles.isEmpty then .ok true else .error ()
    else
      match endpointRoles with
      | some er => .ok (authRoles.any (fun r => er.contains r))
      | none => if authRoles.isEmpty then .ok false else .error ()

/-- The `verify` closure inside `HTTPRoleAuthMixin.login_required`:
Python `and` short-circuits, so `authorize` (and its possible
`TypeError`) is reached only when `authenticate` succeeded. -/
def roleVerify {α : Type} (authenticate : Option α → Option String → Bool)
    (rolesCb : α → List String) (auth : Option α) (stored : Option String)
    (endpointRoles : Option (List String)) (useAll : Bool) : Except Unit Bool :=
  if authenticate auth stored then authorize rolesCb auth endpointRoles useAll
  else .ok false

/-- The failure conditions of `HTTPDigestAuth.authenticate`'s two guard
`if`s: absent credential, any falsy required field or stored secret, or a
rejecting nonce/opaque verifier. -/
def digestFailCond (vN : String → Bool) (vO : Option String → Bool)
    (auth : Option DigestAuth) (stored : String) : Prop :=
  match auth with
  | none => True
  | some a =>
    a.username = "" ∨ a.realm = "" ∨ a.uri = "" ∨ a.nonce = "" ∨
      a.response = "" ∨ stored = "" ∨ vN a.nonce = false ∨ vO a.opaq = false

/-! ### Supporting lemmas -/

set_option maxRecDepth 100000 in
/-- Sanity check that the embedded MD5 is the real MD5 (RFC 1321 test
vector for the empty message). -/
theorem md5Hex_empty_vector : md5Hex "" = "d41d8cd98f00b204e9800998ecf8427e" := by
  decide

set_option maxRecDepth 100000 in
/-- Sanity check that the embedded MD5 is the real MD5 (RFC 1321 test
vector for "abc"). -/
theorem md5Hex_abc_vector : md5Hex "abc" = "900150983cd24fb0d6963f7d28e17f72" := by
  decide

/-- `List.contains` decides membership (lawful `BEq` on strings). -/
theorem contains_eq_mem (l : List String) (a : String) :
    l.contains a = true ↔ a ∈ l := List.elem_iff

/-! ### Claims -/

/-- Claim C1 (corrected). In ALL mode, `authorize` returns `true` iff every
role in the *identity's* role set is present in `required_roles` (the
reverse inclusion of the one claimed); it is vacuously true whenever the
identity's role set is empty. -/
theorem authorize_all_mode {α : Type} (rolesCb : α → List String) (x : α)
    (er : List String) :
    (authorize rolesCb (some x) (some er) true = .ok true ↔
      ∀ r ∈ rolesCb x, r ∈ er) ∧
    (rolesCb x = [] → authorize rolesCb (some x) (some er) true = .ok true) := by
  constructor
  · simp [authorize, List.all_eq_true, List.contains, List.elem_iff]
  · intro h
    simp [authorize, h]

/-- Witness for C1's amended theorem: identity roles `{a}` against required
roles `{a, b}` in ALL mode is authorized by the code. -/
theorem authorize_all_mode_witness :
    authorize (fun _ : Unit => ["a"]) (some ()) (some ["a", "b"]) true = .ok true :=
  (authorize_all_mode (fun _ : Unit => ["a"]) () ["a", "b"]).1.mpr (by decide)

/-- Counterexample to claim C1 as stated: identity roles `{a}`, required
roles `{a, b}`, ALL mode — the claim demands `false` (role `b` is required
but not held), yet `authorize` returns `true`. -/
theorem authorize_all_mode_claim_counterexample :
    authorize (fun _ : Unit => ["a"]) (some ()) (some ["a", "b"]) true = .ok true ∧
    ¬ ("b" ∈ (["a"] : List String)) :=
  ⟨rfl, by decide⟩

/-- Claim C2. In ANY mode (the default), `authorize` returns `true` iff at
least one required role is present in the identity's role set; with an
empty identity role set it returns `false`. -/
theorem authorize_any_mode {α : Type} (rolesCb : α → List String) (x : α)
    (er : List String) :
    (authorize rolesCb (some x) (some er) false = .ok true ↔
      ∃ r ∈ er, r ∈ rolesCb x) ∧
    (rolesCb x = [] → authorize rolesCb (some x) (some er) false = .ok false) := by
  constructor
  · have hrfl : authorize rolesCb (some x) (some er) false =
        .ok ((rolesCb x).any fun r => er.contains r) := rfl
    rw [hrfl]
    simp only [Except.ok.injEq, List.any_eq_true, contains_eq_mem]
    constructor
    · rintro ⟨r, hr, hr'⟩
      exact ⟨r, hr', hr⟩
    · rintro ⟨r, hr, hr'⟩
      exact ⟨r, hr', hr⟩
  · intro h
    simp [authorize, h]

/-- Witness for C2: identity roles `{a}` against required `{a, b}` is
authorized; an empty identity role set against required `{a}` is not. -/
theorem authorize_any_mode_witness :
    authorize (fun _ : Unit => ["a"]) (some ()) (some ["a", "b"]) false = .ok true ∧
    authorize (fun _ : Unit => ([] : List String)) (some ()) (some ["a"]) false =
      .ok false :=
  ⟨(authorize_any_mode (fun _ : Unit => ["a"]) () ["a", "b"]).1.mpr
      ⟨"a", by decide, by decide⟩,
   (authorize_any_mode (fun _ : Unit => ([] : List String)) () ["a"]).2 rfl⟩

/-- Claim C10. With `roles = None` (the parameterized decorator's default),
`authorize` raises `TypeError` (`.error ()`) as soon as the identity's role
set is non-empty, and only returns a boolean when that set is empty:
`false` in ANY mode, `true` in ALL mode (`.ok useAll`). -/
theorem authorize_none_roles {α : Type} (rolesCb : α → List String) (x : α)
    (useAll : Bool) :
    (rolesCb x ≠ [] → authorize rolesCb (some x) none useAll = .error ()) ∧
    (rolesCb x = [] → authorize rolesCb (some x) none useAll = .ok useAll) := by
  constructor <;> intro h <;>
    cases useAll <;> simp [authorize, List.isEmpty_iff, h]

/-- Witness for C10: a non-empty identity role set raises, an empty one
returns the mode's boolean. -/
theorem authorize_none_roles_witness :
    authorize (fun _ : Unit => ["a"]) (some ()) none false = .error () ∧
    authorize (fun _ : Unit => ([] : List String)) (some ()) none true = .ok true :=
  ⟨(authorize_none_roles (fun _ : Unit => ["a"]) () false).1 (by decide),
   (authorize_none_roles (fun _ : Unit => ([] : List String)) () true).2 rfl⟩

/-- Claim C5. Basic authentication with no `verify_password` and no
`hash_password` callback compares the client password against the stored
secret: success exactly when they are equal, and failure whenever either
side is `None`. -/
theorem basic_authenticate_compare (u p s : String) :
    (basicAuthenticate none none (some ⟨u, some p⟩) (some s) = (p == s)) ∧
    ((basicAuthenticate none none (some ⟨u, some p⟩) (some s) = true) ↔ p = s) ∧
    (basicAuthenticate none none (some ⟨u, none⟩) (some s) = false) ∧
    (basicAuthenticate none none (some ⟨u, some p⟩) none = false) := by
  refine ⟨rfl, ?_, rfl, rfl⟩
  simp [basicAuthenticate]

/-- Witness for C5: matching password succeeds, a single-character
mutation fails. -/
theorem basic_authenticate_compare_witness :
    basicAuthenticate none none (some ⟨"u", some "secret"⟩) (some "secret") = true ∧
    basicAuthenticate none none (some ⟨"u", some "sEcret"⟩) (some "secret") = false := by
  constructor
  · exact (basic_authenticate_compare "u" "secret" "secret").2.1.mpr rfl
  · have h := (basic_authenticate_compare "u" "sEcret" "secret").1
    simp only [h]
    decide

/-- Claim C3. When every required Digest field, the stored secret, and both
verifier callbacks pass, `authenticate` returns `true` iff the response
computed by the HA1 → HA2 → response MD5 chain (HA1 being the stored secret
itself under `use_ha1_pw`) equals the client-supplied `response`; the
expected response is a function of
`(username, realm, password, method, uri, nonce)` only. -/
theorem digest_authenticate_chain (useHa1Pw : Bool) (vN : String → Bool)
    (vO : Option String → Bool) (method : String) (a : DigestAuth) (stored : String)
    (hu : a.username ≠ "") (hr : a.realm ≠ "") (huri : a.uri ≠ "")
    (hn : a.nonce ≠ "") (hresp : a.response ≠ "") (hs : stored ≠ "")
    (hvn : vN a.nonce = true) (hvo : vO a.opaq = true) :
    digestAuthenticate useHa1Pw vN vO method (some a) stored =
      (md5Hex ((if useHa1Pw then stored
          else md5Hex (a.username ++ ":" ++ a.realm ++ ":" ++ stored)) ++ ":" ++
          a.nonce ++ ":" ++ md5Hex (method ++ ":" ++ a.uri)) == a.response) := by
  simp [digestAuthenticate, hu, hr, huri, hn, hresp, hs, hvn, hvo]

/-- Witness for C3, on a concrete credential under both `use_ha1_pw`
settings. -/
theorem digest_authenticate_chain_witness :
    digestAuthenticate false (fun _ => true) (fun _ => true) "GET"
        (some ⟨"u", "r", "/d", "n", "x", none⟩) "pw" =
      (md5Hex (md5Hex ("u" ++ ":" ++ "r" ++ ":" ++ "pw") ++ ":" ++ "n" ++ ":" ++
        md5Hex ("GET" ++ ":" ++ "/d")) == "x") ∧
    digestAuthenticate true (fun _ => true) (fun _ => true) "GET"
        (some ⟨"u", "r", "/d", "n", "x", none⟩) "ha1" =
      (md5Hex ("ha1" ++ ":" ++ "n" ++ ":" ++ md5Hex ("GET" ++ ":" ++ "/d")) == "x") :=
  ⟨digest_authenticate_chain false (fun _ => true) (fun _ => true) "GET"
      ⟨"u", "r", "/d", "n", "x", none⟩ "pw" (by decide) (by decide) (by decide)
      (by decide) (by decide) (by decide) rfl rfl,
   digest_authenticate_chain true (fun _ => true) (fun _ => true) "GET"
      ⟨"u", "r", "/d", "n", "x", none⟩ "ha1" (by decide) (by decide) (by decide)
      (by decide) (by decide) (by decide) rfl rfl⟩

/-- Claim C4. Digest `authenticate` returns `false` whenever the credential
is absent, any of `username, realm, uri, nonce, response` or the stored
secret is empty, or either verifier callback rejects; the result is the
same bare `false` in every such case. -/
theorem digest_authenticate_shortcircuit (useHa1Pw : Bool) (vN : String → Bool)
    (vO : Option String → Bool) (method : String) (auth : Option DigestAuth)
    (stored : String) (h : digestFailCond vN vO auth stored) :
    digestAuthenticate useHa1Pw vN vO method auth stored = false := by
  match auth with
  | none => rfl
  | some a =>
    simp only [digestFailCond] at h
    by_cases h1 : (a.username == "" || a.realm == "" || a.uri == "" ||
        a.nonce == "" || a.response == "" || stored == "") = true
    · simp [digestAuthenticate, h1]
    · rcases h with h | h | h | h | h | h | h | h <;>
        simp [digestAuthenticate, h1, h]

/-- Witness for C4: an empty username fails, as does an absent credential
and a rejecting nonce verifier, all with the same bare `false`. -/
theorem digest_authenticate_shortcircuit_witness :
    digestAuthenticate false (fun _ => true) (fun _ => true) "GET"
      (some ⟨"", "r", "/d", "n", "x", none⟩) "pw" = false ∧
    digestAuthenticate false (fun _ => true) (fun _ => true) "GET" none "pw" = false ∧
    digestAuthenticate false (fun _ => false) (fun _ => true) "GET"
      (some ⟨"u", "r", "/d", "n", "x", none⟩) "pw" = false :=
  ⟨digest_authenticate_shortcircuit false (fun _ => true) (fun _ => true) "GET"
      (some ⟨"", "r", "/d", "n", "x", none⟩) "pw" (Or.inl rfl),
   digest_authenticate_shortcircuit false (fun _ => true) (fun _ => true) "GET"
      none "pw" trivial,
   digest_authenticate_shortcircuit false (fun _ => false) (fun _ => true) "GET"
      (some ⟨"u", "r", "/d", "n", "x", none⟩) "pw"
      (Or.inr (Or.inr (Or.inr (Or.inr (Or.inr (Or.inr (Or.inl rfl)))))))⟩

/-- Claim C6. `get_auth` yields no credentials — rather than raising — when
the header has no token after the scheme (exactly as if the header were
absent), and when the parsed scheme token differs case-insensitively from
the configured scheme (whether the credentials came from werkzeug or from
the hand parser). -/
theorem get_auth_no_crash (scheme h : String) :
    (pySplitOnce h = none →
      getAuth none (some h) scheme = none ∧ getAuth none none scheme = none) ∧
    (∀ t tok, pySplitOnce h = some (t, tok) → lowerStr t ≠ lowerStr scheme →
      getAuth none (some h) scheme = none) ∧
    (∀ a : ParsedAuth, lowerStr a.atype ≠ lowerStr scheme →
      getAuth (some a) (some h) scheme = none) := by
  refine ⟨fun hp => ⟨?_, rfl⟩, fun t tok hp hne => ?_, fun a hne => ?_⟩
  · simp [getAuth, hp]
  · simp [getAuth, hp, hne]
  · simp [getAuth, hne]

/-- Witness for C6: the bare header `"Basic"` and a mismatched scheme both
yield no credentials. -/
theorem get_auth_no_crash_witness :
    getAuth none (some "Basic") "Basic" = none ∧
    getAuth none (some "Bearer xyz") "Basic" = none := by
  constructor
  · exact ((get_auth_no_crash "Basic" "Basic").1 (by decide)).1
  · exact (get_auth_no_crash "Basic" "Bearer xyz").2.1 "Bearer" "xyz"
      (by decide) (by decide)

/-- `List.find?` over an appended list searches the front first. -/
theorem find?_append_eq {α : Type} (p : α → Bool) (l1 l2 : List α) :
    (l1 ++ l2).find? p = ((l1.find? p).orElse fun _ => l2.find? p) := by
  induction l1 with
  | nil => rfl
  | cons a l ih =>
    by_cases hp : p a = true
    · simp [List.find?, hp]
    · simp only [Bool.not_eq_true] at hp
      simp [List.find?, hp, ih]

/-- Claim C7. `selected_auth` returns the first additional authenticator,
in registration order, whose scheme equals the header's scheme token under
case-sensitive string equality; with no match, an absent header, or a
header without a second token, it returns the primary authenticator. -/
theorem selected_auth_dispatch {α : Type} (schemeOf : α → String) (mainAuth : α)
    (additional : List α) :
    (selectedAuth schemeOf mainAuth additional none = mainAuth) ∧
    (∀ h, pySplitOnce h = none →
      selectedAuth schemeOf mainAuth additional (some h) = mainAuth) ∧
    (∀ h t c, pySplitOnce h = some (t, c) → (∀ a ∈ additional, schemeOf a ≠ t) →
      selectedAuth schemeOf mainAuth additional (some h) = mainAuth) ∧
    (∀ h t c l1 x l2, pySplitOnce h = some (t, c) →
      additional = l1 ++ x :: l2 → schemeOf x = t → (∀ a ∈ l1, schemeOf a ≠ t) →
      selectedAuth schemeOf mainAuth additional (some h) = x) := by
  refine ⟨rfl, fun h hp => ?_, fun h t c hp hno => ?_, ?_⟩
  · simp [selectedAuth, hp]
  · have hfind : additional.find? (fun a => schemeOf a == t) = none := by
      rw [List.find?_eq_none]
      intro a ha
      simp [hno a ha]
    simp [selectedAuth, hp, hfind]
  · rintro h t c l1 x l2 hp rfl hx hno
    have hfind : (l1 ++ x :: l2).find? (fun a => schemeOf a == t) = some x := by
      rw [find?_append_eq]
      have h1 : l1.find? (fun a => schemeOf a == t) = none := by
        rw [List.find?_eq_none]
        intro a ha
        simp [hno a ha]
      rw [h1]
      simp [List.find?, hx]
    simp [selectedAuth, hp, hfind]

/-- Witness for C7: `"Bearer xyz"` routes to the registered Bearer
authenticator; `"Basic abc"` (no additional match) and an absent header
route to the primary. -/
theorem selected_auth_dispatch_witness :
    selectedAuth Prod.snd ((0, "Basic") : Nat × String) [(1, "Bearer")]
      (some "Bearer xyz") = (1, "Bearer") ∧
    selectedAuth Prod.snd ((0, "Basic") : Nat × String) [(1, "Bearer")]
      (some "Basic abc") = (0, "Basic") ∧
    selectedAuth Prod.snd ((0, "Basic") : Nat × String) [(1, "Bearer")] none =
      (0, "Basic") := by
  refine ⟨?_, ?_, ?_⟩
  · exact (selected_auth_dispatch Prod.snd (0, "Basic") [(1, "Bearer")]).2.2.2
      "Bearer xyz" "Bearer" "xyz" [] (1, "Bearer") [] (by decide) rfl rfl
      (by intro a ha; cases ha)
  · exact (selected_auth_dispatch Prod.snd (0, "Basic") [(1, "Bearer")]).2.2.1
      "Basic abc" "Basic" "abc" (by decide) (by decide)
  · exact (selected_auth_dispatch Prod.snd (0, "Basic") [(1, "Bearer")]).1

/-- The construction-time loop of `MultiRoleAuth.__init__` succeeds exactly
when every listed authenticator is role-capable. -/
theorem checkRoleCapable_ok_iff (l : List AuthCap) :
    checkRoleCapable l = .ok () ↔ ∀ a ∈ l, a.roleCapable = true := by
  induction l with
  | nil => simp [checkRoleCapable]
  | cons a rest ih =>
    by_cases ha : a.roleCapable = true
    · simp [checkRoleCapable, ha, ih]
    · simp only [Bool.not_eq_true] at ha
      simp [checkRoleCapable, ha]

/-- Claim C8. `MultiRoleAuth.__init__` succeeds iff the primary and every
additional authenticator are role-capable, and raises `TypeError`
(`.error ()`) iff some registered authenticator is not; so the
misconfiguration is decided at construction time. -/
theorem multi_role_auth_init_check (mainAuth : AuthCap) (additional : List AuthCap) :
    (multiRoleAuthInit mainAuth additional = .ok (mainAuth, additional) ↔
      mainAuth.roleCapable = true ∧ ∀ a ∈ additional, a.roleCapable = true) ∧
    (multiRoleAuthInit mainAuth additional = .error () ↔
      ¬(mainAuth.roleCapable = true ∧ ∀ a ∈ additional, a.roleCapable = true)) := by
  have hok : checkRoleCapable (mainAuth :: additional) = .ok () ↔
      mainAuth.roleCapable = true ∧ ∀ a ∈ additional, a.roleCapable = true := by
    rw [checkRoleCapable_ok_iff]
    simp
  constructor
  · cases hc : checkRoleCapable (mainAuth :: additional) with
    | ok u =>
      cases u
      simp only [multiRoleAuthInit, hc]
      simp [← hok, hc]
    | error e =>
      simp only [multiRoleAuthInit, hc]
      rw [← hok, hc]
      simp
  · cases hc : checkRoleCapable (mainAuth :: additional) with
    | ok u =>
      cases u
      simp only [multiRoleAuthInit, hc]
      rw [← hok, hc]
      simp
    | error e =>
      cases e
      simp only [multiRoleAuthInit, hc]
      rw [← hok, hc]
      simp

/-- Witness for C8: construction succeeds with only role-capable
authenticators and raises `TypeError` when an additional one is not. -/
theorem multi_role_auth_init_check_witness :
    multiRoleAuthInit ⟨"Basic", true⟩ [⟨"Bearer", true⟩] =
      .ok (⟨"Basic", true⟩, [⟨"Bearer", true⟩]) ∧
    multiRoleAuthInit ⟨"Basic", true⟩ [⟨"Bearer", false⟩] = .error () := by
  constructor
  · exact (multi_role_auth_init_check ⟨"Basic", true⟩ [⟨"Bearer", true⟩]).1.mpr
      (by decide)
  · exact (multi_role_auth_init_check ⟨"Basic", true⟩ [⟨"Bearer", false⟩]).2.mpr
      (by decide)

/-- Claim C9. The error responder turns a callback status of 200 into 401
and keeps any other status; it sets `WWW-Authenticate` to the challenge
string when the callback's response lacks that header, and leaves the
headers untouched when the callback already set it. -/
theorem error_handler_response (challenge : String) (res : Resp) :
    (res.status = 200 → (errorResponse challenge res).status = 401) ∧
    (res.status ≠ 200 → (errorResponse challenge res).status = res.status) ∧
    ((∀ kv ∈ res.headers, kv.1 ≠ "WWW-Authenticate") →
      headerLookup (errorResponse challenge res) "WWW-Authenticate" =
        some challenge) ∧
    ((∃ kv ∈ res.headers, kv.1 = "WWW-Authenticate") →
      (errorResponse challenge res).headers = res.headers) := by
  have hany : (res.headers.any fun kv => kv.1 == "WWW-Authenticate") = false →
      errorResponse challenge res =
        { status := if res.status == 200 then 401 else res.status,
          headers := res.headers ++ [("WWW-Authenticate", challenge)] } := by
    intro hno
    by_cases h200 : (res.status == 200) = true
    · simp [errorResponse, h200, hno]
    · simp only [Bool.not_eq_true] at h200
      simp [errorResponse, h200, hno]
  refine ⟨fun h200 => ?_, fun h200 => ?_, fun hno => ?_, fun hyes => ?_⟩
  · by_cases hno : (res.headers.any fun kv => kv.1 == "WWW-Authenticate") = true
    · simp [errorResponse, h200, hno]
    · simp only [Bool.not_eq_true] at hno
      simp [errorResponse, h200, hno]
  · by_cases hno : (res.headers.any fun kv => kv.1 == "WWW-Authenticate") = true
    · simp [errorResponse, h200, hno]
    · simp only [Bool.not_eq_true] at hno
      simp [errorResponse, h200, hno]
  · have hnob : (res.headers.any fun kv => kv.1 == "WWW-Authenticate") = false := by
      rw [Bool.eq_false_iff]
      intro hcontra
      rw [List.any_eq_true] at hcontra
      obtain ⟨kv, hkv, hbeq⟩ := hcontra
      exact hno kv hkv (by simpa using hbeq)
    rw [hany hnob]
    have hfind : res.headers.find? (fun kv => kv.1 == "WWW-Authenticate") = none := by
      rw [List.find?_eq_none]
      intro kv hkv
      simp [hno kv hkv]
    simp only [headerLookup, find?_append_eq, hfind]
    simp [List.find?]
  · have hyesb : (res.headers.any fun kv => kv.1 == "WWW-Authenticate") = true := by
      rw [List.any_eq_true]
      obtain ⟨kv, hkv, heq⟩ := hyes
      exact ⟨kv, hkv, by simp [heq]⟩
    by_cases h200 : (res.status == 200) = true
    · simp [errorResponse, h200, hyesb]
    · simp only [Bool.not_eq_true] at h200
      simp [errorResponse, h200, hyesb]

/-- Witness for C9, using the Basic challenge string: a 200/headerless
callback response gains status 401 and the challenge header; a response
that already set `WWW-Authenticate` keeps its headers. -/
theorem error_handler_response_witness :
    (errorResponse (authenticateHeader "Basic" "r") ⟨200, []⟩).status = 401 ∧
    headerLookup (errorResponse (authenticateHeader "Basic" "r") ⟨200, []⟩)
      "WWW-Authenticate" = some (authenticateHeader "Basic" "r") ∧
    (errorResponse (authenticateHeader "Basic" "r")
      ⟨403, [("WWW-Authenticate", "custom")]⟩).headers =
      [("WWW-Authenticate", "custom")] := by
  refine ⟨?_, ?_, ?_⟩
  · exact (error_handler_response (authenticateHeader "Basic" "r") ⟨200, []⟩).1 rfl
  · exact (error_handler_response (authenticateHeader "Basic" "r")
      ⟨200, []⟩).2.2.1 (by intro kv hkv; cases hkv)
  · exact (error_handler_response (authenticateHeader "Basic" "r")
      ⟨403, [("WWW-Authenticate", "custom")]⟩).2.2.2
      ⟨("WWW-Authenticate", "custom"), by simp⟩
